import Mathlib

/-!
Shallow embedding of the WattSaver power-management core (wattsaver.py).

Conventions of the embedding:
- File and process I/O is passed in explicitly: a sysfs read is an
  Option String (none = OSError/IOError on open or read), a subprocess
  invocation is an Except value (error = a raised exception).
- Python functions that can raise an uncaught exception are embedded as
  Except Unit results; .error marks the uncaught exception.
- Python machine-independent ints are Lean Int.  Python floor division
  (the // operator) is Int division with a positive literal divisor,
  which agrees with Lean Int `/` (Euclidean division).
- Python round(x) on a float freq/100000 is embedded as exact
  round-half-to-even on the rational freq/100000 (see bucket below):
  for the kHz magnitudes involved (far below 2^52) the IEEE-754 double
  division is exactly rounded and cannot cross or create a .5 tie, so
  this is exact.
- Core Lean String functions do not reduce in the kernel, so the Python
  str operations (strip, lower, split, in, startswith, lstrip, isdigit)
  are re-implemented structurally on List Char.  Digits are modelled as
  ASCII digits.
-/

/-- Decidable equality for Except results, so that concrete runs of the
embedded fallible functions can be settled by decide. -/
instance {ε α : Type} [DecidableEq ε] [DecidableEq α] : DecidableEq (Except ε α) :=
  fun x y =>
    match x, y with
    | Except.ok a, Except.ok b => decidable_of_iff (a = b) (by simp)
    | Except.error a, Except.error b => decidable_of_iff (a = b) (by simp)
    | Except.ok _, Except.error _ => isFalse (fun h => Except.noConfusion h)
    | Except.error _, Except.ok _ => isFalse (fun h => Except.noConfusion h)

/-! ### Character-list models of the Python str operations used -/

/-- Python str.strip with no argument: drop whitespace at both ends. -/
def pyStripChars (cs : List Char) : List Char :=
  ((cs.dropWhile Char.isWhitespace).reverse.dropWhile Char.isWhitespace).reverse

/-- Python s.strip() on a String. -/
def pyStrip (s : String) : String := ⟨pyStripChars s.data⟩

/-- Python s.lower() (ASCII model). -/
def pyLower (s : String) : String := ⟨s.data.map Char.toLower⟩

/-- Is n a prefix of h (Python str.startswith, over char lists). -/
def prefixB : List Char → List Char → Bool
  | [], _ => true
  | _ :: _, [] => false
  | a :: as, b :: bs => a == b && prefixB as bs

/-- Is n an infix of h (substring test for the Python operator in). -/
def infixB (n : List Char) : List Char → Bool
  | [] => prefixB n []
  | c :: cs => prefixB n (c :: cs) || infixB n cs

/-- Python needle in hay for strings. -/
def strContains (hay needle : String) : Bool := infixB needle.data hay.data

/-- Helper for splitWs: cur is the current token, reversed. -/
def splitWsGo : List Char → List Char → List String
  | cur, [] => if cur.isEmpty then [] else [⟨cur.reverse⟩]
  | cur, c :: cs =>
    if c.isWhitespace then
      if cur.isEmpty then splitWsGo [] cs else ⟨cur.reverse⟩ :: splitWsGo [] cs
    else splitWsGo (c :: cur) cs

/-- Python s.split() with no argument: split on whitespace runs,
no empty tokens. -/
def splitWs (s : String) : List String := splitWsGo [] s.data

/-- Numeric value of a list of ASCII digits (most significant first). -/
def natOfDigitsAux (acc : Nat) : List Char → Nat
  | [] => acc
  | c :: cs => natOfDigitsAux (acc * 10 + (c.toNat - '0'.toNat)) cs

/-- Numeric value of a digit string. -/
def natOfDigits (cs : List Char) : Nat := natOfDigitsAux 0 cs

/-- Python s.lstrip(dash): drop ALL leading minus signs (wattsaver.py:54). -/
def lstripMinus (cs : List Char) : List Char := cs.dropWhile (fun c => c == '-')

/-- Python s.isdigit(): nonempty and all digits (ASCII model). -/
def pyIsdigit (cs : List Char) : Bool := !cs.isEmpty && cs.all Char.isDigit

/-- Python int(s) restricted to the strings that can reach it in
read_sysfs_int (a run of minus signs followed by digits): it succeeds
exactly when there is at most one leading minus sign; on any other
input of that shape (two or more minus signs) int() raises ValueError,
modelled as none. -/
def pyIntOfString (s : String) : Option Int :=
  match s.data with
  | '-' :: rest =>
    if !rest.isEmpty && rest.all Char.isDigit then some (-(natOfDigits rest : Int)) else none
  | cs =>
    if !cs.isEmpty && cs.all Char.isDigit then some ((natOfDigits cs : Int)) else none

/-! ### SysfsReader (wattsaver.py lines 44-56) -/

/-- read_sysfs (wattsaver.py:44-49): the raw argument is the outcome of
opening and reading the file (none = OSError/IOError, which the
function catches); the content is stripped. -/
def read_sysfs (raw : Option String) : Option String :=
  match raw with
  | none => none
  | some s => some (pyStrip s)

/-- read_sysfs_int (wattsaver.py:52-56): guard is
val and val.lstrip(dash).isdigit(); when the guard passes, int(val) is
evaluated with NO exception handler, so a guard-passing string on which
int() raises (two or more leading minus signs) escapes as an uncaught
ValueError, modelled as Except.error. -/
def read_sysfs_int (raw : Option String) : Except Unit (Option Int) :=
  match read_sysfs raw with
  | none => Except.ok none
  | some val =>
    if !val.data.isEmpty && pyIsdigit (lstripMinus val.data) then
      match pyIntOfString val with
      | some n => Except.ok (some n)
      | none => Except.error ()
    else Except.ok none

/-- Python x or default for an Option Int read: any falsy value (absent
OR the integer 0) selects the default (wattsaver.py:105-110). -/
def pyOrInt (v : Option Int) (d : Int) : Int :=
  match v with
  | none => d
  | some x => if x = 0 then d else x

/-! ### run_helper (wattsaver.py lines 75-90) -/

/-- Timeout in seconds passed to subprocess.run in run_helper. -/
def HELPER_TIMEOUT : Nat := 30

/-- Exceptions subprocess.run may raise in run_helper: TimeoutExpired
after HELPER_TIMEOUT seconds, or any other exception (carrying str(e)). -/
inductive HelperExc where
  | timeoutExpired : HelperExc
  | other : String → HelperExc
deriving DecidableEq

/-- Completed-process result as returned by subprocess.run. -/
structure ProcResult where
  returncode : Int
  stdout : String
  stderr : String
deriving DecidableEq

/-- run_helper (wattsaver.py:75-90).  helperFound models find_helper()
returning a usable path; res models the subprocess invocation. -/
def run_helper (helperFound : Bool) (res : Except HelperExc ProcResult) : Bool × String :=
  if !helperFound then (false, "Helper script not found")
  else
    match res with
    | Except.ok r =>
      if r.returncode = 0 then (true, pyStrip r.stdout)
      else if r.returncode = 126 then (false, "Authentication dismissed")
      else (false, if !(pyStrip r.stderr).data.isEmpty then pyStrip r.stderr else pyStrip r.stdout)
    | Except.error HelperExc.timeoutExpired => (false, "Operation timed out")
    | Except.error (HelperExc.other e) => (false, e)

/-! ### ProfileSynthesizer (CPUInfo, wattsaver.py lines 95-232) -/

/-- One synthesized power profile (the dicts built in build_profiles). -/
structure Profile where
  key : String
  label : String
  freq_khz : Int
  icon : String
deriving DecidableEq

/-- CPUInfo frequency fields (wattsaver.py:104-113).  Only the fields
build_profiles reads are carried; model/driver/cores/governors are
passed explicitly to the functions that use them. -/
structure CPUInfo where
  hw_min_khz : Int
  hw_max_khz : Int
  base_khz : Int
deriving DecidableEq

/-- The bucket round(freq_khz / 100000) of wattsaver.py:221.  Python
round is round-half-to-even; freq_khz / 100000 is evaluated exactly
(see header note on IEEE-754 exactness at these magnitudes). -/
def bucket (khz : Int) : Int :=
  if khz % 100000 < 50000 then khz / 100000
  else if khz % 100000 = 50000 then
    (if (khz / 100000) % 2 = 0 then khz / 100000 else khz / 100000 + 1)
  else khz / 100000 + 1

/-- Zero-padded two-digit rendering of n < 100. -/
def pad2 (n : Nat) : String := if n < 10 then "0" ++ toString n else toString n

/-- CPUInfo._fmt_ghz (wattsaver.py:227-232): one decimal when the GHz
value is an integer, else two decimals.  The %.2f rounding of the
float is modelled as exact decimal round-half-to-even to hundredths;
the sign of a negative value rounding to 0.00 is not modelled. -/
def fmt_ghz (khz : Int) : String :=
  if khz % 1000000 = 0 then toString (khz / 1000000) ++ ".0 GHz"
  else
    let h : Int :=
      if khz % 10000 < 5000 then khz / 10000
      else if khz % 10000 = 5000 then
        (if (khz / 10000) % 2 = 0 then khz / 10000 else khz / 10000 + 1)
      else khz / 10000 + 1
    let sgn := if h < 0 then "-" else ""
    sgn ++ toString (h.natAbs / 100) ++ "." ++ pad2 (h.natAbs % 100) ++ " GHz"

/-- The deduplication loop of build_profiles (wattsaver.py:217-225):
keep the first profile encountered per bucket; seen is the set of
buckets already kept. -/
def dedupGo : List Int → List Profile → List Profile
  | _, [] => []
  | seen, p :: ps =>
    if bucket p.freq_khz ∈ seen then dedupGo seen ps
    else p :: dedupGo (bucket p.freq_khz :: seen) ps

/-- CPUInfo.build_profiles (wattsaver.py:165-225): five candidates at
lo, lo + span // 4, base, lo + 3 * span // 4, hi, then dedupGo. -/
def CPUInfo.build_profiles (c : CPUInfo) : List Profile :=
  let lo := c.hw_min_khz
  let hi := c.hw_max_khz
  let base := c.base_khz
  let span := hi - lo
  let profiles : List Profile :=
    [ { key := "powersaver"
      , label := "Power Saver (" ++ fmt_ghz lo ++ ")"
      , freq_khz := lo
      , icon := "power-profile-power-saver-symbolic" }
    , { key := "low"
      , label := "Low (" ++ fmt_ghz (lo + span / 4) ++ ")"
      , freq_khz := lo + span / 4
      , icon := "power-profile-power-saver-symbolic" }
    , { key := "balanced"
      , label := "Balanced (" ++ fmt_ghz base ++ ")"
      , freq_khz := base
      , icon := "power-profile-balanced-symbolic" }
    , { key := "high"
      , label := "High (" ++ fmt_ghz (lo + 3 * span / 4) ++ ")"
      , freq_khz := lo + 3 * span / 4
      , icon := "power-profile-performance-symbolic" }
    , { key := "performance"
      , label := "Performance (" ++ fmt_ghz hi ++ ")"
      , freq_khz := hi
      , icon := "power-profile-performance-symbolic" } ]
  dedupGo [] profiles

/-! ### Base-frequency detection (CPUInfo._detect_base_freq, lines 131-143) -/

/-- Character class [\d.] of the regex in wattsaver.py:138. -/
def isNumChar (c : Char) : Bool := c.isDigit || c == '.'

/-- Attempt the regex at the start of cs.  The pattern is
at-sign, \s*, ([\d.]+), \s*, then the literal GHz.  Maximal munch is
exact here: no character of [\d.] is whitespace or the letter G, so
the regex engine cannot succeed by backtracking a shorter run. -/
def ghzMatchAt : List Char → Option (List Char)
  | '@' :: rest =>
    let rest1 := rest.dropWhile Char.isWhitespace
    let ds := rest1.takeWhile isNumChar
    if ds.isEmpty then none
    else
      match (rest1.dropWhile isNumChar).dropWhile Char.isWhitespace with
      | 'G' :: 'H' :: 'z' :: _ => some ds
      | _ => none
  | _ => none

/-- Leftmost-match loop of re.search for the pattern of
wattsaver.py:138; returns the captured group 1. -/
def reSearchGhzGo : List Char → Option (List Char)
  | [] => none
  | c :: cs =>
    match ghzMatchAt (c :: cs) with
    | some g => some g
    | none => reSearchGhzGo cs

/-- re.search of the at-sign/GHz pattern over the model string. -/
def reSearchGhz (s : String) : Option (List Char) := reSearchGhzGo s.data

/-- Python float() restricted to the captured group (digits and dots
only): at most one dot and at least one digit.  The value is returned
as (digits, number of fractional digits), i.e. the rational
digits / 10 ^ fracLen; anything else raises ValueError (none).
Exponents or inf never match the character class. -/
def parseGhzNum (g : List Char) : Option (Nat × Nat) :=
  let ip := g.takeWhile Char.isDigit
  match g.dropWhile Char.isDigit with
  | [] => if ip.isEmpty then none else some (natOfDigits ip, 0)
  | '.' :: fs =>
    if fs.all Char.isDigit && (!ip.isEmpty || !fs.isEmpty) then
      some (natOfDigits (ip ++ fs), fs.length)
    else none
  | _ => none

/-- int(float(g) * 1_000_000) for the nonnegative captured value
n / 10^k: exact-rational model, truncation = floor here.  (IEEE-754
double evaluation can differ by one ulp before truncation on some
inputs; the concrete inputs used below are exact either way.) -/
def ghz_khz (n k : Nat) : Int := Int.ofNat (n * 1000000 / 10 ^ k)

/-- Fallback chain of _detect_base_freq after the sysfs node: regex on
the model string (an unparseable captured group would raise ValueError
out of float(), uncaught), else the midpoint (hw_min + hw_max) // 2. -/
def base_fallback (model : String) (hw_min hw_max : Int) : Except Unit Int :=
  match reSearchGhz model with
  | some g =>
    match parseGhzNum g with
    | some (n, k) => Except.ok (ghz_khz n k)
    | none => Except.error ()
  | none => Except.ok ((hw_min + hw_max) / 2)

/-- CPUInfo._detect_base_freq (wattsaver.py:131-143).  node is the
read_sysfs_int result for the base_frequency node; the Python guard
if val: is truthiness, so both absent and 0 fall through. -/
def detect_base_freq (node : Option Int) (model : String) (hw_min hw_max : Int) :
    Except Unit Int :=
  match node with
  | some v => if v = 0 then base_fallback model hw_min hw_max else Except.ok v
  | none => base_fallback model hw_min hw_max

/-- CPUInfo.__init__ frequency fields (wattsaver.py:104-113): hardware
bounds default via Python or-truthiness, then base frequency. -/
def CPUInfo.ofSysfs (minRead maxRead baseNode : Option Int) (model : String) :
    Except Unit CPUInfo :=
  let hwmin := pyOrInt minRead 800000
  let hwmax := pyOrInt maxRead 4000000
  (detect_base_freq baseNode model hwmin hwmax).map
    (fun b => { hw_min_khz := hwmin, hw_max_khz := hwmax, base_khz := b })

/-! ### StateReconciler: profile match (WattSaver._detect_profile, 434-449) -/

/-- The scan loop of _detect_profile over self.profiles[1:], carrying
the current best key and best absolute difference; a later profile
replaces the best only on a strictly smaller difference. -/
def goBest (current : Int) (bestKey : String) (bestDiff : Int) : List Profile → String
  | [] => bestKey
  | p :: ps =>
    if |current - p.freq_khz| < bestDiff then goBest current p.key |current - p.freq_khz| ps
    else goBest current bestKey bestDiff ps

/-- WattSaver._detect_profile (wattsaver.py:434-449).  current is the
read_sysfs_int of scaling_max_freq (assumed not to raise); on None the
default is balanced, otherwise self.profiles[0] is accessed unguarded
(IndexError on an empty list, modelled as Except.error). -/
def detect_profile (profiles : List Profile) (current : Option Int) : Except Unit String :=
  match current with
  | none => Except.ok "balanced"
  | some cur =>
    match profiles with
    | [] => Except.error ()
    | p :: ps => Except.ok (goBest cur p.key |cur - p.freq_khz| ps)

/-! ### StateReconciler: undervolt match (WattSaver._detect_undervolt, 451-469) -/

/-- The single-quoted plane token searched for in each config line
(built from characters to keep the file free of quote characters). -/
def cpuPlane : String := ⟨['\'', 'C', 'P', 'U', '\'']⟩

/-- Guard of wattsaver.py:456 on an already-stripped line:
line.startswith(undervolt) and quoted CPU in line and Cache not in line. -/
def uvLineMatch (line : String) : Bool :=
  prefixB "undervolt".data line.data && strContains line cpuPlane && !strContains line "Cache"

/-- The classification chain of wattsaver.py:459-466 applied to the
truncated integer offset. -/
def classify_offset (offset : Int) : String :=
  if offset = 0 then "none"
  else if offset ≥ -50 then "light"
  else if offset ≥ -100 then "medium"
  else "aggressive"

/-- int(float(tok)) for a trailing config token: optional sign, then a
decimal literal; truncation toward zero keeps only the integer part.
Scientific notation and inf/nan spellings are not modelled.  A
non-numeric token is a ValueError (none). -/
def parseOffset (s : String) : Option Int :=
  let (sgn, rest) :=
    match s.data with
    | '-' :: t => ((-1 : Int), t)
    | '+' :: t => ((1 : Int), t)
    | t => ((1 : Int), t)
  let ip := rest.takeWhile Char.isDigit
  match rest.dropWhile Char.isDigit with
  | [] => if ip.isEmpty then none else some (sgn * (natOfDigits ip : Int))
  | '.' :: fs =>
    if fs.all Char.isDigit && (!ip.isEmpty || !fs.isEmpty) then
      some (sgn * (natOfDigits ip : Int))
    else none
  | _ => none

/-- The line scan of _detect_undervolt.  The try block wraps the whole
loop, so a ValueError on the first matching line ends the scan with
the fallback result none; parts is nonempty for a matching line, so
parts[-1] cannot raise IndexError there. -/
def scanUv : List String → String
  | [] => "none"
  | l :: ls =>
    let line := pyStrip l
    if uvLineMatch line then
      match (splitWs line).getLast? with
      | some tok =>
        match parseOffset tok with
        | some offset => classify_offset offset
        | none => "none"
      | none => "none"
    else scanUv ls

/-- WattSaver._detect_undervolt (wattsaver.py:451-469): file content as
a list of lines, none = the open itself raised (missing file). -/
def detect_undervolt (fileLines : Option (List String)) : String :=
  match fileLines with
  | none => "none"
  | some lines => scanUv lines

/-! ### StateReconciler: GPU mode (WattSaver._detect_gpu_mode, 471-483) -/

/-- Known GPU modes (wattsaver.py:31), in match priority order. -/
def GPU_MODES : List String := ["integrated", "hybrid", "nvidia"]

/-- Timeout in seconds passed to the envycontrol query. -/
def GPU_QUERY_TIMEOUT : Nat := 5

/-- WattSaver._detect_gpu_mode (wattsaver.py:471-483).  res models the
subprocess.run call: error = any raised exception (timeout after
GPU_QUERY_TIMEOUT seconds, missing binary, ...), ok carries the
CompletedProcess.  Only stdout is inspected; the returncode field is
deliberately carried to show it is never read. -/
def detect_gpu_mode (res : Except Unit ProcResult) : String :=
  match res with
  | Except.error _ => "unknown"
  | Except.ok r =>
    let output := pyLower (pyStrip r.stdout)
    match GPU_MODES.find? (fun m => strContains output m) with
    | some m => m
    | none => "unknown"

/-! ### Lemmas about bucketing and deduplication -/

/-- The 100 MHz bucket is monotone in the frequency. -/
lemma bucket_mono {a b : Int} (h : a ≤ b) : bucket a ≤ bucket b := by
  unfold bucket
  split_ifs <;> omega

/-- A strictly larger bucket forces a strictly larger frequency. -/
lemma lt_of_bucket_lt {a b : Int} (h : bucket a < bucket b) : a < b := by
  by_contra hc
  push_neg at hc
  exact absurd (bucket_mono hc) (by omega)

/-- Every profile surviving deduplication came from the input list and
its bucket was not among the already-seen buckets. -/
lemma dedupGo_mem :
    ∀ (l : List Profile) (seen : List Int) (q : Profile),
      q ∈ dedupGo seen l → q ∈ l ∧ bucket q.freq_khz ∉ seen := by
  intro l
  induction l with
  | nil => intro seen q hq; simp [dedupGo] at hq
  | cons p ps ih =>
    intro seen q hq
    rw [dedupGo] at hq
    by_cases hmem : bucket p.freq_khz ∈ seen
    · rw [if_pos hmem] at hq
      obtain ⟨h1, h2⟩ := ih seen q hq
      exact ⟨List.mem_cons_of_mem _ h1, h2⟩
    · rw [if_neg hmem] at hq
      rcases List.mem_cons.mp hq with hq | hq
      · exact ⟨by simp [hq], hq ▸ hmem⟩
      · obtain ⟨h1, h2⟩ := ih _ q hq
        refine ⟨List.mem_cons_of_mem _ h1, fun hc => h2 ?_⟩
        exact List.mem_cons_of_mem _ hc

/-- Deduplication output never contains two profiles in the same
bucket, for ANY input list. -/
lemma dedupGo_buckets_distinct :
    ∀ (l : List Profile) (seen : List Int),
      List.Pairwise (fun a b => bucket a.freq_khz ≠ bucket b.freq_khz) (dedupGo seen l) := by
  intro l
  induction l with
  | nil => intro seen; simp [dedupGo]
  | cons p ps ih =>
    intro seen
    rw [dedupGo]
    by_cases hmem : bucket p.freq_khz ∈ seen
    · rw [if_pos hmem]; exact ih seen
    · rw [if_neg hmem]
      refine List.Pairwise.cons (fun q hq => ?_) (ih _)
      obtain ⟨-, h2⟩ := dedupGo_mem ps _ q hq
      exact fun hc => h2 (by simp [hc])

/-- On a freq-nondecreasing input list, deduplication output has
strictly increasing buckets, hence strictly increasing frequencies. -/
lemma dedupGo_sorted :
    ∀ (l : List Profile) (seen : List Int),
      List.Pairwise (fun a b => a.freq_khz ≤ b.freq_khz) l →
      List.Pairwise (fun a b => a.freq_khz < b.freq_khz) (dedupGo seen l) := by
  intro l
  induction l with
  | nil => intro seen _; simp [dedupGo]
  | cons p ps ih =>
    intro seen hsort
    rw [List.pairwise_cons] at hsort
    obtain ⟨hple, hps⟩ := hsort
    rw [dedupGo]
    by_cases hmem : bucket p.freq_khz ∈ seen
    · rw [if_pos hmem]; exact ih seen hps
    · rw [if_neg hmem]
      refine List.Pairwise.cons (fun q hq => ?_) (ih _ hps)
      obtain ⟨h1, h2⟩ := dedupGo_mem ps _ q hq
      have hle : bucket p.freq_khz ≤ bucket q.freq_khz := bucket_mono (hple q h1)
      have hne : bucket p.freq_khz ≠ bucket q.freq_khz := fun hc => h2 (by simp [hc])
      exact lt_of_bucket_lt (by omega)

/-! ### Lemma about the nearest-profile scan -/

/-- Characterization of the _detect_profile scan loop: either no list
element strictly beats the incoming best (and the incoming best key is
returned), or the returned key belongs to the FIRST element attaining
the minimum difference, which strictly beats the incoming best and
every element before it. -/
lemma goBest_spec (l : List Profile) :
    ∀ (c : Int) (bk : String) (bd : Int),
      (goBest c bk bd l = bk ∧ ∀ p ∈ l, bd ≤ |c - p.freq_khz|) ∨
      (∃ pre q post, l = pre ++ q :: post ∧
        goBest c bk bd l = q.key ∧
        |c - q.freq_khz| < bd ∧
        (∀ r ∈ pre, |c - q.freq_khz| < |c - r.freq_khz|) ∧
        (∀ r ∈ l, |c - q.freq_khz| ≤ |c - r.freq_khz|)) := by
  induction l with
  | nil =>
    intro c bk bd
    exact Or.inl ⟨rfl, by simp⟩
  | cons p ps ih =>
    intro c bk bd
    by_cases h : |c - p.freq_khz| < bd
    · rw [goBest, if_pos h]
      rcases ih c p.key |c - p.freq_khz| with ⟨heq, hall⟩ | ⟨pre, q, post, heq, hres, hlt, hpre, hmin⟩
      · refine Or.inr ⟨[], p, ps, by simp, heq, h, by simp, ?_⟩
        intro r hr
        rcases List.mem_cons.mp hr with hr | hr
        · simp [hr]
        · exact hall r hr
      · refine Or.inr ⟨p :: pre, q, post, by simp [heq], hres, by omega, ?_, ?_⟩
        · intro r hr
          rcases List.mem_cons.mp hr with hr | hr
          · rw [hr]; omega
          · exact hpre r hr
        · intro r hr
          rcases List.mem_cons.mp hr with hr | hr
          · rw [hr]; omega
          · exact hmin r (heq ▸ hr)
    · rw [goBest, if_neg h]
      rcases ih c bk bd with ⟨heq, hall⟩ | ⟨pre, q, post, heq, hres, hlt, hpre, hmin⟩
      · refine Or.inl ⟨heq, ?_⟩
        intro r hr
        rcases List.mem_cons.mp hr with hr | hr
        · rw [hr]; omega
        · exact hall r hr
      · refine Or.inr ⟨p :: pre, q, post, by simp [heq], hres, hlt, ?_, ?_⟩
        · intro r hr
          rcases List.mem_cons.mp hr with hr | hr
          · rw [hr]; omega
          · exact hpre r hr
        · intro r hr
          rcases List.mem_cons.mp hr with hr | hr
          · rw [hr]; omega
          · exact hmin r (heq ▸ hr)

/-! ### Claim C1 -/

/-- C1 (amended): for every CPUInfo, no two profiles returned by
build_profiles share a round(freq_khz / 100000) bucket; and whenever
hwMinKHz < hwMaxKHz AND baseKHz lies between the Low candidate
(hwMin + span // 4) and the High candidate (hwMin + 3 * span // 4),
the returned list is in strictly ascending freq_khz order.  (The
ascending-order half is NOT true for arbitrary baseKHz, see the
counterexample.) -/
theorem c1_build_profiles_sorted_dedup (c : CPUInfo) :
    List.Pairwise (fun a b => bucket a.freq_khz ≠ bucket b.freq_khz) c.build_profiles ∧
    (c.hw_min_khz < c.hw_max_khz →
      c.hw_min_khz + (c.hw_max_khz - c.hw_min_khz) / 4 ≤ c.base_khz →
      c.base_khz ≤ c.hw_min_khz + 3 * (c.hw_max_khz - c.hw_min_khz) / 4 →
      List.Pairwise (fun a b => a.freq_khz < b.freq_khz) c.build_profiles) := by
  unfold CPUInfo.build_profiles
  refine ⟨dedupGo_buckets_distinct _ _, fun h1 h2 h3 => dedupGo_sorted _ _ ?_⟩
  haveI : IsTrans Profile (fun a b => a.freq_khz ≤ b.freq_khz) :=
    ⟨fun _ _ _ hab hbc => le_trans hab hbc⟩
  rw [← List.chain'_iff_pairwise]
  simp only [List.chain'_cons, List.chain'_singleton, and_true]
  omega

/-- Witness for C1 at the documented wide-range CPU
(hwMin 800000, hwMax 4000000, base 2400000): strictly ascending. -/
theorem c1_build_profiles_sorted_dedup_witness :
    List.Pairwise (fun a b => a.freq_khz < b.freq_khz)
      (CPUInfo.build_profiles ⟨800000, 4000000, 2400000⟩) :=
  (c1_build_profiles_sorted_dedup ⟨800000, 4000000, 2400000⟩).2
    (by decide) (by decide) (by decide)

/-- C1 counterexample: hwMin 800000 < hwMax 4000000 but base 860000
(inside the hardware range, below the Low candidate): every candidate
keeps a distinct bucket, so the Balanced candidate 860000 survives
AFTER Low 1600000 and the output is not in ascending order. -/
theorem c1_counterexample :
    (CPUInfo.build_profiles ⟨800000, 4000000, 860000⟩).map (fun p => p.freq_khz)
      = [800000, 1600000, 860000, 3200000, 4000000] ∧
    ¬ List.Pairwise (fun a b => a.freq_khz < b.freq_khz)
        (CPUInfo.build_profiles ⟨800000, 4000000, 860000⟩) := by
  constructor
  · decide
  · decide

/-! ### Claim C2 -/

/-- C2 (amended): for hwMin 3600000, hwMax 3800000, base 3700000 the
Low candidate is 3650000, whose exact half 36.5 rounds UNDER the
Python round-half-to-even rule to 36, the SAME bucket as the Power
Saver candidate 3600000 and a DIFFERENT bucket from the Balanced
candidate 3700000 (bucket 37).  Hence Low is deduplicated away while
Balanced survives (and, symmetrically, High 3750000 takes bucket 38,
evicting Performance): the surviving keys are powersaver, balanced,
high. -/
theorem c2_narrow_range_dedup :
    bucket 3650000 = bucket 3600000 ∧
    bucket 3650000 ≠ bucket 3700000 ∧
    (CPUInfo.build_profiles ⟨3600000, 3800000, 3700000⟩).map (fun p => p.key)
      = ["powersaver", "balanced", "high"] := by
  refine ⟨by decide, by decide, by decide⟩

/-- C2 counterexample to the claim as stated: the Low candidate
3650000 and the Balanced candidate 3700000 do NOT round to the same
bucket (36 versus 37), and Low does not survive deduplication while
Balanced does. -/
theorem c2_counterexample :
    ¬ (bucket 3650000 = bucket 3700000) ∧
    ¬ ("low" ∈ (CPUInfo.build_profiles ⟨3600000, 3800000, 3700000⟩).map (fun p => p.key)) ∧
    "balanced" ∈ (CPUInfo.build_profiles ⟨3600000, 3800000, 3700000⟩).map (fun p => p.key) := by
  refine ⟨by decide, by decide, by decide⟩

/-! ### Claim C10 -/

/-- C10: build_profiles always returns a non-empty list whose first
element is the Power Saver profile at the hardware minimum frequency
(the first candidate always survives deduplication against an empty
seen set); consequently the unguarded profiles[0] access in
_detect_profile never faults: detect_profile on a synthesized list
always returns a key. -/
theorem c10_first_profile_powersaver (c : CPUInfo) (cur : Option Int) :
    (∃ rest, c.build_profiles =
      { key := "powersaver"
      , label := "Power Saver (" ++ fmt_ghz c.hw_min_khz ++ ")"
      , freq_khz := c.hw_min_khz
      , icon := "power-profile-power-saver-symbolic" } :: rest) ∧
    ∃ s, detect_profile c.build_profiles cur = Except.ok s := by
  have hhead : ∃ rest, c.build_profiles =
      { key := "powersaver"
      , label := "Power Saver (" ++ fmt_ghz c.hw_min_khz ++ ")"
      , freq_khz := c.hw_min_khz
      , icon := "power-profile-power-saver-symbolic" } :: rest := by
    simp only [CPUInfo.build_profiles]
    rw [dedupGo, if_neg (List.not_mem_nil _)]
    exact ⟨_, rfl⟩
  refine ⟨hhead, ?_⟩
  obtain ⟨rest, hrest⟩ := hhead
  cases cur with
  | none => exact ⟨"balanced", rfl⟩
  | some v =>
    rw [hrest]
    exact ⟨_, rfl⟩

/-! ### Claim C3 -/

/-- C3 (the fail-soft contract, evaluated): read_sysfs returns absent
on I/O failure; read_sysfs_int parses digits with one optional leading
minus sign and returns absent for non-numeric or empty content and for
I/O failure — BUT on content with two or more leading minus signs the
lstrip-based guard passes and int() raises an uncaught ValueError, so
the function is NOT exception-free as the spec claims. -/
theorem c3_read_sysfs_int_eval :
    read_sysfs_int (some "--5") = Except.error () ∧
    read_sysfs_int (some "-5") = Except.ok (some (-5)) ∧
    read_sysfs_int (some " 17\n") = Except.ok (some 17) ∧
    read_sysfs_int (some "abc") = Except.ok none ∧
    read_sysfs_int (some "") = Except.ok none ∧
    read_sysfs_int (some "-") = Except.ok none ∧
    read_sysfs_int none = Except.ok none ∧
    read_sysfs none = none := by
  refine ⟨by decide, by decide, by decide, by decide, by decide, by decide, by decide, rfl⟩

/-! ### Claim C4 -/

/-- C4: undervolt classification is total on the nonpositive integers
with the claimed boundaries (0 none; [-50, 0) light; [-100, -51]
medium; below -100 aggressive); a missing file yields none, a file
with no matching line yields none, a matching line with a non-numeric
trailing field yields none, and the documented -75 example line
classifies as medium. -/
theorem c4_undervolt_classification :
    (∀ offset : Int, offset ≤ 0 →
      ((offset = 0 → classify_offset offset = "none") ∧
       (-50 ≤ offset → offset < 0 → classify_offset offset = "light") ∧
       (-100 ≤ offset → offset ≤ -51 → classify_offset offset = "medium") ∧
       (offset < -100 → classify_offset offset = "aggressive"))) ∧
    detect_undervolt none = "none" ∧
    (∀ ls : List String, (∀ l ∈ ls, uvLineMatch (pyStrip l) = false) →
      detect_undervolt (some ls) = "none") ∧
    detect_undervolt (some ["undervolt 0 " ++ cpuPlane ++ " -75"]) = "medium" ∧
    detect_undervolt (some ["undervolt 0 " ++ cpuPlane ++ " notanumber"]) = "none" := by
  refine ⟨?_, rfl, ?_, by decide, by decide⟩
  · intro o _
    refine ⟨fun h0 => ?_, fun ha hb => ?_, fun ha hb => ?_, fun ha => ?_⟩ <;>
      (unfold classify_offset; split_ifs <;> first | rfl | omega)
  · have aux : ∀ ls : List String,
        (∀ l ∈ ls, uvLineMatch (pyStrip l) = false) → scanUv ls = "none" := by
      intro ls
      induction ls with
      | nil => intro _; rfl
      | cons l ls ih =>
        intro h
        have hl := h l (List.mem_cons_self l ls)
        simp only [scanUv, hl, Bool.false_eq_true, if_false]
        exact ih fun x hx => h x (List.mem_cons_of_mem _ hx)
    intro ls h
    exact aux ls h

/-- Witness for C4 at the boundary example -75: medium. -/
theorem c4_undervolt_classification_witness : classify_offset (-75) = "medium" :=
  ((c4_undervolt_classification.1 (-75) (by decide)).2.2.1 (by decide) (by decide))

/-! ### Claim C5 -/

/-- C5: profile matching returns balanced when the live value is
unreadable; on a non-empty profile list with a readable live value it
returns the key of the first profile attaining the minimum absolute
difference to the live value (so exact ties go to the
earlier-encountered profile), that key belongs to the list, and a live
value exactly equal to some profile frequency selects a profile with
exactly that frequency. -/
theorem c5_detect_profile_nearest :
    (∀ profiles : List Profile, detect_profile profiles none = Except.ok "balanced") ∧
    (∀ (p0 : Profile) (rest : List Profile) (cur : Int),
      ∃ pre q post, p0 :: rest = pre ++ q :: post ∧
        detect_profile (p0 :: rest) (some cur) = Except.ok q.key ∧
        (∀ r ∈ pre, |cur - q.freq_khz| < |cur - r.freq_khz|) ∧
        (∀ r ∈ p0 :: rest, |cur - q.freq_khz| ≤ |cur - r.freq_khz|) ∧
        (∀ r ∈ p0 :: rest, r.freq_khz = cur → q.freq_khz = cur)) := by
  constructor
  · intro profiles; rfl
  · intro p0 rest cur
    have key : ∀ (q : Profile),
        (∀ r ∈ p0 :: rest, |cur - q.freq_khz| ≤ |cur - r.freq_khz|) →
        (∀ r ∈ p0 :: rest, r.freq_khz = cur → q.freq_khz = cur) := by
      intro q hmin r hr hfr
      have h1 := hmin r hr
      rw [hfr, sub_self, abs_zero] at h1
      have h2 := abs_nonneg (cur - q.freq_khz)
      have h0 : |cur - q.freq_khz| = 0 := le_antisymm h1 h2
      rw [abs_eq_zero] at h0
      omega
    rcases goBest_spec rest cur p0.key |cur - p0.freq_khz| with
      ⟨heq, hall⟩ | ⟨pre, q, post, heq, hres, hlt, hpre, hmin⟩
    · have hmin0 : ∀ r ∈ p0 :: rest, |cur - p0.freq_khz| ≤ |cur - r.freq_khz| := by
        intro r hr
        rcases List.mem_cons.mp hr with hr | hr
        · rw [hr]
        · exact hall r hr
      refine ⟨[], p0, rest, rfl, ?_, by simp, hmin0, key p0 hmin0⟩
      show Except.ok (goBest cur p0.key |cur - p0.freq_khz| rest) = _
      rw [heq]
    · have hmin0 : ∀ r ∈ p0 :: rest, |cur - q.freq_khz| ≤ |cur - r.freq_khz| := by
        intro r hr
        rcases List.mem_cons.mp hr with hr | hr
        · rw [hr]; omega
        · exact hmin r hr
      refine ⟨p0 :: pre, q, post, by simp [heq], ?_, ?_, hmin0, key q hmin0⟩
      · show Except.ok (goBest cur p0.key |cur - p0.freq_khz| rest) = _
        rw [hres]
      · intro r hr
        rcases List.mem_cons.mp hr with hr | hr
        · rw [hr]; omega
        · exact hpre r hr

/-- Witness for C5: the absent-live-value default. -/
theorem c5_detect_profile_nearest_witness : detect_profile [] none = Except.ok "balanced" :=
  c5_detect_profile_nearest.1 []

/-! ### Claim C6 -/

/-- C6 (amended): base-frequency resolution priority, with the first
step gated on a NONZERO sysfs value (Python truthiness): a nonzero
node value is returned as-is; otherwise a regex match of the
at-sign/float/GHz pattern in the model string is converted by
float-times-one-million-truncated; otherwise the integer midpoint
(hwMin + hwMax) // 2 is returned. -/
theorem c6_base_freq_priority (node : Option Int) (model : String) (mn mx : Int) :
    (∀ v : Int, node = some v → v ≠ 0 →
      detect_base_freq node model mn mx = Except.ok v) ∧
    ((node = none ∨ node = some 0) →
      (∀ g n k, reSearchGhz model = some g → parseGhzNum g = some (n, k) →
        detect_base_freq node model mn mx = Except.ok (ghz_khz n k)) ∧
      (reSearchGhz model = none →
        detect_base_freq node model mn mx = Except.ok ((mn + mx) / 2))) := by
  constructor
  · rintro v rfl hv
    simp [detect_base_freq, hv]
  · rintro (rfl | rfl) <;>
      exact ⟨fun g n k hg hp => by simp [detect_base_freq, base_fallback, hg, hp],
             fun hg => by simp [detect_base_freq, base_fallback, hg]⟩

/-- Witness for C6: a nonzero sysfs node value is returned directly. -/
theorem c6_base_freq_priority_witness :
    detect_base_freq (some 2400000) "whatever" 0 0 = Except.ok 2400000 :=
  (c6_base_freq_priority (some 2400000) "whatever" 0 0).1 2400000 rfl (by decide)

/-- C6 counterexample to the claim as stated: the node DOES yield a
value, namely 0, yet 0 is not returned — the regex fallback result
1600000 is (Python tests truthiness, not absence). -/
theorem c6_counterexample :
    detect_base_freq (some 0) "Intel(R) Core(TM) i5-8250U CPU @ 1.60GHz" 800000 4000000
      = Except.ok 1600000 ∧ (1600000 : Int) ≠ 0 :=
  ⟨by decide, by decide⟩

/-! ### Claim C7 -/

/-- C7: run_helper outcome mapping — exit 0 gives success with trimmed
stdout; exit 126 gives failure with the authentication-dismissed
message; any other exit gives failure with trimmed stderr, or trimmed
stdout when stderr trims to empty; TimeoutExpired (after the
HELPER_TIMEOUT = 30 second bound) gives failure with the timeout
message; any other exception is also caught and mapped, so nothing
propagates to the caller. -/
theorem c7_run_helper_mapping (r : ProcResult) :
    (r.returncode = 0 → run_helper true (Except.ok r) = (true, pyStrip r.stdout)) ∧
    (r.returncode = 126 → run_helper true (Except.ok r) = (false, "Authentication dismissed")) ∧
    (r.returncode ≠ 0 → r.returncode ≠ 126 → (pyStrip r.stderr).data ≠ [] →
      run_helper true (Except.ok r) = (false, pyStrip r.stderr)) ∧
    (r.returncode ≠ 0 → r.returncode ≠ 126 → (pyStrip r.stderr).data = [] →
      run_helper true (Except.ok r) = (false, pyStrip r.stdout)) ∧
    run_helper true (Except.error HelperExc.timeoutExpired) = (false, "Operation timed out") ∧
    (∀ e, run_helper true (Except.error (HelperExc.other e)) = (false, e)) ∧
    HELPER_TIMEOUT = 30 := by
  refine ⟨fun h0 => ?_, fun h126 => ?_, fun hn0 hn126 herr => ?_, fun hn0 hn126 herr => ?_,
    rfl, fun e => rfl, rfl⟩
  · simp [run_helper, h0]
  · simp [run_helper, h126]
  · simp [run_helper, hn0, hn126, List.isEmpty_iff, herr]
  · simp [run_helper, hn0, hn126, List.isEmpty_iff, herr]

/-- Witness for C7: a zero exit status with padded stdout. -/
theorem c7_run_helper_mapping_witness :
    run_helper true (Except.ok ⟨0, " done", "ignored"⟩) = (true, "done") := by
  have h := (c7_run_helper_mapping ⟨0, " done", "ignored"⟩).1 rfl
  rw [h]
  decide

/-! ### Claim C8 -/

/-- C8 (amended): GPU mode detection lowercases the trimmed query
stdout and returns the first of integrated, hybrid, nvidia occurring
as a substring, trying them in that fixed order; a raised exception
(timeout, missing binary) or unrecognized output yields unknown — but
the exit status of a completed query is never consulted, so a non-zero
exit status with recognizable stdout still yields that mode. -/
theorem c8_gpu_mode_matching (rc : Int) (out err : String) :
    detect_gpu_mode (Except.ok ⟨rc, out, err⟩) =
      (if strContains (pyLower (pyStrip out)) "integrated" then "integrated"
       else if strContains (pyLower (pyStrip out)) "hybrid" then "hybrid"
       else if strContains (pyLower (pyStrip out)) "nvidia" then "nvidia"
       else "unknown") ∧
    detect_gpu_mode (Except.error ()) = "unknown" ∧
    GPU_QUERY_TIMEOUT = 5 := by
  refine ⟨?_, rfl, rfl⟩
  by_cases h1 : strContains (pyLower (pyStrip out)) "integrated" <;>
    by_cases h2 : strContains (pyLower (pyStrip out)) "hybrid" <;>
      by_cases h3 : strContains (pyLower (pyStrip out)) "nvidia" <;>
        simp [detect_gpu_mode, GPU_MODES, List.find?, h1, h2, h3]

/-- Witness for C8: recognizable stdout is matched case-insensitively. -/
theorem c8_gpu_mode_matching_witness :
    detect_gpu_mode (Except.ok ⟨0, "Current mode: Hybrid", ""⟩) = "hybrid" := by
  have h := (c8_gpu_mode_matching 0 "Current mode: Hybrid" "").1
  rw [h]
  decide

/-- C8 counterexample to the claim as stated: an invocation that fails
with exit status 1 but prints nvidia is NOT mapped to unknown — the
exit status is ignored and nvidia is returned. -/
theorem c8_counterexample :
    detect_gpu_mode (Except.ok ⟨1, "nvidia", ""⟩) = "nvidia" ∧ "nvidia" ≠ "unknown" :=
  ⟨by decide, by decide⟩

/-! ### Claim C9 -/

/-- C9: a sysfs read of the integer 0 behaves exactly like an
unreadable value: the hardware bounds fall back to 800000 / 4000000
(or-defaulting tests truthiness), the whole CPUInfo construction is
unchanged between reading 0 and reading nothing, and a base_frequency
node containing 0 is skipped in favor of the next resolution method. -/
theorem c9_zero_is_absent (node : Option Int) (m : String) :
    pyOrInt (some 0) 800000 = 800000 ∧
    pyOrInt none 800000 = 800000 ∧
    pyOrInt (some 0) 4000000 = 4000000 ∧
    pyOrInt none 4000000 = 4000000 ∧
    CPUInfo.ofSysfs (some 0) (some 0) node m = CPUInfo.ofSysfs none none node m ∧
    detect_base_freq (some 0) m 800000 4000000 = detect_base_freq none m 800000 4000000 := by
  refine ⟨rfl, rfl, rfl, rfl, rfl, rfl⟩
